import Mathlib

/-
  Verification of the JWT credential-lifecycle scripts:
  * src/server_jwt_generator.py  (Issuance workflow, namespace ServerGen)
  * src/local_jwt_sync.py        (Sync workflow, namespace LocalSync)

  The on-disk cache is modelled as an association list from path strings to
  file contents, with at most one binding per path kept by construction.
-/

namespace KeeperJwt

/-- A file system state: paths mapped to string contents. -/
abbrev FS := List (String × String)

namespace FS

/-- Read the content of a file, if present. -/
def read (fs : FS) (p : String) : Option String :=
  (fs.find? (fun e => e.1 == p)).map (fun e => e.2)

/-- Python `Path.exists()`. -/
def pathExists (fs : FS) (p : String) : Bool :=
  (read fs p).isSome

/-- Drop every binding for path `p`. -/
def remove (fs : FS) (p : String) : FS :=
  fs.filter (fun e => e.1 != p)

/-- Python `open(p, 'w'); f.write(c)`: replace the content at `p`. -/
def write (fs : FS) (p : String) (c : String) : FS :=
  (p, c) :: remove fs p

/-- Python `Path.rename`: move the content at `src` to `dst` (no-op when
`src` is absent, which the scripts guard against with `exists()`). -/
def rename (fs : FS) (src dst : String) : FS :=
  match read fs src with
  | none => fs
  | some c => write (remove fs src) dst c

end FS

/-- A broken-down local/UTC wall-clock time, as used by Python
`datetime.now().strftime` for backup-file timestamps. -/
structure DateTime6 where
  year : Nat
  month : Nat
  day : Nat
  hour : Nat
  minute : Nat
  second : Nat
deriving DecidableEq, Repr

/-- Zero-padded two-digit field of `strftime` (for month, day, hour, minute, second). -/
def pad2 (n : Nat) : String :=
  if n < 10 then "0" ++ toString n else toString n

/-- Zero-padded four-digit year field of `strftime` (%Y). -/
def pad4 (n : Nat) : String :=
  if n < 10 then "000" ++ toString n
  else if n < 100 then "00" ++ toString n
  else if n < 1000 then "0" ++ toString n
  else toString n

/-- Python `datetime.strftime('%Y%m%d_%H%M%S')`. -/
def strftimeCompact (t : DateTime6) : String :=
  pad4 t.year ++ pad2 t.month ++ pad2 t.day ++ "_" ++
    pad2 t.hour ++ pad2 t.minute ++ pad2 t.second

/-- The cache location part of the loaded JWT configuration
(`secrets_dir`, `jwt_filename` keys of `jwt_config` in both scripts). -/
structure JwtConfig where
  secrets_dir : String
  jwt_filename : String
deriving DecidableEq, Repr

/-- Python `Path(secrets_dir) / jwt_filename`. -/
def jwtPath (dir filename : String) : String :=
  dir ++ "/" ++ filename

/-- The current cache path of a configuration. -/
def JwtConfig.cachePath (cfg : JwtConfig) : String :=
  jwtPath cfg.secrets_dir cfg.jwt_filename

/-- The backup path `remove_old_jwt` renames the current file to:
`filename + ".backup." + now.strftime('%Y%m%d_%H%M%S')` inside the same
directory (local_jwt_sync.py lines 117-122). -/
def JwtConfig.backupPath (cfg : JwtConfig) (now : DateTime6) : String :=
  jwtPath cfg.secrets_dir (cfg.jwt_filename ++ ".backup." ++ strftimeCompact now)

/-- A record fetched from the Keeper vault: title, primary password field,
free-text notes. -/
structure VaultRecord where
  title : String
  password : String
  notes : String
deriving DecidableEq, Repr

/-- The vault: uid-indexed records.  `fetch uid` models
`secrets_manager.get_secrets([uid])`, which returns the (possibly empty)
list of records matching the uid. -/
structure Vault where
  records : List (String × VaultRecord)
deriving DecidableEq, Repr

def Vault.fetch (v : Vault) (uid : String) : List VaultRecord :=
  (v.records.filter (fun e => e.1 == uid)).map (fun e => e.2)

namespace LocalSync

/-- local_jwt_sync.py `remove_old_jwt` (lines 110-127): if the cache file
exists, rename it to a timestamped backup and return `true`; otherwise
leave the file system untouched and return `false`. -/
def remove_old_jwt (cfg : JwtConfig) (now : DateTime6) (fs : FS) : FS × Bool :=
  if FS.pathExists fs cfg.cachePath then
    (FS.rename fs cfg.cachePath (cfg.backupPath now), true)
  else
    (fs, false)

/-- local_jwt_sync.py `save_jwt_locally` (lines 193-214): write the token
verbatim to the cache path (the pure model always succeeds; the `chmod`
to mode 600 has no observable effect on contents). -/
def save_jwt_locally (jwt_token : String) (cfg : JwtConfig) (fs : FS) :
    FS × Option String :=
  (FS.write fs cfg.cachePath jwt_token, some cfg.cachePath)

/-- Python whitespace test used by `str.strip()`. -/
def pyIsSpace (c : Char) : Bool :=
  c == ' ' || c == '\t' || c == '\n' || c == '\r' || c == '\x0b' || c == '\x0c'

/-- Python `str.strip()`: drop leading and trailing whitespace. -/
def pyStrip (s : String) : String :=
  String.mk (((s.toList.dropWhile pyIsSpace).reverse.dropWhile pyIsSpace).reverse)

/-- The diagnostics reported by `verify_jwt_access`: success flag, the
character count it prints, and the bounded preview it prints. -/
structure VerifyOut where
  readable : Bool
  length : Nat
  preview : String
deriving DecidableEq, Repr

/-- local_jwt_sync.py `verify_jwt_access` (lines 216-241): fail when the
file is missing; otherwise read it, strip whitespace, succeed iff the
stripped token is non-empty, reporting its length and first 30 characters. -/
def verify_jwt_access (cfg : JwtConfig) (fs : FS) : VerifyOut :=
  match FS.read fs cfg.cachePath with
  | none => ⟨false, 0, ""⟩
  | some content =>
    let token := pyStrip content
    if token.length > 0 then ⟨true, token.length, token.take 30⟩
    else ⟨false, 0, ""⟩

/-- local_jwt_sync.py `retrieve_jwt_from_keeper` (lines 129-191), reduced to
its returned token: fetch the record list for the uid; empty list (record
not found) or an empty `password` field yield no token.  The JWT decode in
the body is print-only introspection and does not affect the result. -/
def retrieve_jwt_from_keeper (v : Vault) (token_record_uid : String) :
    Option String :=
  match v.fetch token_record_uid with
  | [] => none
  | r :: _ => if r.password = "" then none else some r.password

/-- The expiry comparison inside `retrieve_jwt_from_keeper` (lines 162-176):
`exp_datetime = datetime.fromtimestamp(exp)` interprets the epoch-second
claim in the LOCAL timezone (adding the local UTC offset), while
`now = datetime.utcnow()` is UTC wall-clock with microseconds; the token is
reported valid iff `exp_datetime > now`.  Both sides are compared here in
microseconds. -/
def token_expiry_valid (exp_timestamp tzOffsetSec nowSec nowUsec : Int) :
    Bool :=
  (exp_timestamp + tzOffsetSec) * 1000000 > nowSec * 1000000 + nowUsec

/-- Modelled from the spec: "Expiry evaluation: compare `exp` against the
caller's current time in UTC; `valid` iff `exp > now`" — the UTC comparison
the source intends (its own output labels the printed instant "UTC"). -/
def spec_expiry_valid (exp_timestamp nowSec nowUsec : Int) : Bool :=
  exp_timestamp * 1000000 > nowSec * 1000000 + nowUsec

/-- The observable outcome of one Sync run (local_jwt_sync.py `main`,
from step 5 on): final file system, process exit code, whether an old
credential was rotated, and the verification flag. -/
structure SyncResult where
  fs : FS
  exitCode : Nat
  hadOld : Bool
  accessOk : Bool
deriving Repr

/-- local_jwt_sync.py `main` steps 5-8 (lines 299-331), after configuration
and vault connection succeed: FIRST rotate the old cache file
(`remove_old_jwt`), THEN fetch the token; a missing record or empty token
exits 1 at that point; otherwise save, verify, and return (exit 0 — `main`
does not exit non-zero on a failed verification). -/
def sync_run (cfg : JwtConfig) (v : Vault) (token_record_uid : String)
    (now : DateTime6) (fs : FS) : SyncResult :=
  let r5 := remove_old_jwt cfg now fs
  match retrieve_jwt_from_keeper v token_record_uid with
  | none => ⟨r5.1, 1, r5.2, false⟩
  | some token =>
    let r7 := save_jwt_locally token cfg r5.1
    let ok := (verify_jwt_access cfg r7.1).readable
    ⟨r7.1, 0, r5.2, ok⟩

end LocalSync

namespace Config

/-- A parsed `app_config.json`: the two record-uid keys, each possibly
absent. -/
structure AppConfig where
  jwt_token_record_uid : Option String
  jwt_config_record_uid : Option String
deriving DecidableEq, Repr

/-- The two environment variables consulted first
(`JWT_TOKEN_RECORD_UID`, `JWT_CONFIG_RECORD_UID`), each possibly unset. -/
structure Env where
  jwt_token_record_uid_var : Option String
  jwt_config_record_uid_var : Option String
deriving DecidableEq, Repr

/-- The state of the local `app_config.json` file. -/
inductive AppConfigFile
  | absent
  | unparseable
  | parsed (c : AppConfig)
deriving DecidableEq, Repr

/-- The template written in the fallback branch: both uids set to the
placeholder values. -/
def templateConfig : AppConfig :=
  ⟨some "YOUR_JWT_TOKEN_RECORD_UID", some "YOUR_JWT_CONFIG_RECORD_UID"⟩

/-- Python truthiness of `os.getenv(A) and os.getenv(B)`: both variables
present and non-empty. -/
def envBothSet (e : Env) : Bool :=
  match e.jwt_token_record_uid_var, e.jwt_config_record_uid_var with
  | some a, some b => a != "" && b != ""
  | _, _ => false

/-- `load_app_config`, identical in both scripts (local_jwt_sync.py lines
22-57, server_jwt_generator.py lines 111-146): environment variables first;
else a parseable config file; else write the placeholder template (also
over an unparseable file) and return `None`.  The second component is the
state of `app_config.json` after the call. -/
def load_app_config (e : Env) (file : AppConfigFile) :
    Option AppConfig × AppConfigFile :=
  if envBothSet e then
    (some ⟨e.jwt_token_record_uid_var, e.jwt_config_record_uid_var⟩, file)
  else
    match file with
    | .parsed c => (some c, .parsed c)
    | .absent => (none, .parsed templateConfig)
    | .unparseable => (none, .parsed templateConfig)

/-- The `if not app_config: sys.exit(1)` step of both `main`s. -/
def config_stage_exit (r : Option AppConfig) : Option Nat :=
  match r with
  | none => some 1
  | some _ => none

/-- `required_keys` in both `main`s. -/
def required_keys : List String :=
  ["jwt_token_record_uid", "jwt_config_record_uid"]

/-- Python `app_config.get(k)`. -/
def AppConfig.get (c : AppConfig) (k : String) : Option String :=
  if k = "jwt_token_record_uid" then c.jwt_token_record_uid
  else if k = "jwt_config_record_uid" then c.jwt_config_record_uid
  else none

/-- Python `str.startswith(p)`, computed over the character lists. -/
def pyStartsWith (s p : String) : Bool :=
  List.isPrefixOf p.toList s.toList

/-- The filter in both `main`s:
`not app_config.get(k) or app_config[k].startswith('YOUR_')`. -/
def key_missing (c : AppConfig) (k : String) : Bool :=
  match AppConfig.get c k with
  | none => true
  | some v => v == "" || pyStartsWith v "YOUR_"

/-- `missing_keys` in both `main`s (local_jwt_sync.py line 255,
server_jwt_generator.py line 368): the required keys that are absent,
empty, or still carry the `YOUR_` placeholder. -/
def missing_keys (c : AppConfig) : List String :=
  required_keys.filter (key_missing c)

/-- `if missing_keys: print(...); sys.exit(1)` in both `main`s. -/
def validate_exit (c : AppConfig) : Option Nat :=
  if missing_keys c = [] then none else some 1

end Config

namespace ServerGen

/-- A UTC instant as Python `datetime.utcnow()` carries it: whole epoch
seconds plus a microsecond part. -/
structure UtcTime where
  sec : Int
  usec : Int
deriving DecidableEq, Repr

/-- Python `datetime + timedelta(hours=h)`: the microsecond part is
unchanged. -/
def addHours (t : UtcTime) (h : Int) : UtcTime :=
  ⟨t.sec + 3600 * h, t.usec⟩

/-- The `jwt_config` dict built by `load_jwt_config_from_keeper`
(server_jwt_generator.py lines 148-222): signing secret from the record
password, issuer/audience/expiration/cache-location fields with their
defaults already resolved. -/
structure SigningConfig where
  secret : String
  issuer : String
  audience : String
  expiration_hours : Int
  secrets_dir : String
  jwt_filename : String
deriving DecidableEq, Repr

/-- The cache-location part of a signing configuration. -/
def SigningConfig.cacheConfig (cfg : SigningConfig) : JwtConfig :=
  ⟨cfg.secrets_dir, cfg.jwt_filename⟩

/-- The claim set built by `generate_jwt` (lines 238-252), with the two
datetime-valued claims kept at full microsecond precision. -/
structure Payload where
  iss : String
  aud : String
  iat : UtcTime
  exp : UtcTime
  sub : String
  team : String
  permissions : List String
  generated_at : UtcTime
  version : String
deriving DecidableEq, Repr

/-- The claim set as it appears on the wire: datetime claims as integral
epoch seconds. -/
structure WireClaims where
  iss : String
  aud : String
  iat : Int
  exp : Int
  sub : String
  team : String
  permissions : List String
  version : String
deriving DecidableEq, Repr

/-- Modelled from the spec: the PyJWT claim conversion used by
`jwt.encode` — datetime-valued claims (`iat`, `exp`) are converted to
integral epoch seconds, truncating the microsecond part; all other claims
pass through. -/
def encodeWireClaims (p : Payload) : WireClaims :=
  ⟨p.iss, p.aud, p.iat.sec, p.exp.sec, p.sub, p.team, p.permissions,
    p.version⟩

/-- Modelled from the spec: the opaque signed string of the Token Codec —
an HMAC-SHA256-signed serialization fully determined by the claim set and
the secret (so two tokens with different `iat`/`exp` have different
serializations); `decodeUnverified` recovers the claim set without
checking the signature. -/
structure EncodedJwt where
  claims : WireClaims
  secret : String
deriving DecidableEq, Repr

/-- Modelled from the spec: a canonical rendering standing in for the
compact JWS serialization; like the real one it is determined by the
claims and the secret. -/
def EncodedJwt.rawString (t : EncodedJwt) : String :=
  t.claims.iss ++ "|" ++ t.claims.aud ++ "|" ++ toString t.claims.iat ++
    "|" ++ toString t.claims.exp ++ "|" ++ t.claims.sub ++ "|" ++
    t.claims.version ++ "|" ++ t.secret

/-- Modelled from the spec: `jwt.encode(payload, secret, algorithm="HS256")`. -/
def jwtEncode (p : Payload) (secret : String) : EncodedJwt :=
  ⟨encodeWireClaims p, secret⟩

/-- Modelled from the spec: `jwt.decode(token, verify_signature=False)`. -/
def decodeUnverified (t : EncodedJwt) : WireClaims :=
  t.claims

/-- server_jwt_generator.py `generate_jwt` (lines 231-262): build the
payload with `iat = now`, `exp = now + timedelta(hours=expiration_hours)`,
the fixed subject/team/permissions/version claims, and sign it with the
configured secret. -/
def generate_jwt (cfg : SigningConfig) (now : UtcTime) :
    EncodedJwt × Payload :=
  let payload : Payload :=
    { iss := cfg.issuer
      aud := cfg.audience
      iat := now
      exp := addHours now cfg.expiration_hours
      sub := "api-development-access"
      team := "API Engineers"
      permissions := ["api:read", "api:write", "api:deploy"]
      generated_at := now
      version := "1.0" }
  (jwtEncode payload cfg.secret, payload)

/-- server_jwt_generator.py `save_jwt_locally` (lines 264-279): write the
token at the cache path.  Unlike the sync script, there is no
`remove_old` here — the write replaces any existing content in place. -/
def save_jwt_locally (token : String) (cfg : SigningConfig) (fs : FS) :
    FS × String :=
  (FS.write fs cfg.cacheConfig.cachePath token, cfg.cacheConfig.cachePath)

/-- server_jwt_generator.py `update_jwt_in_keeper` (lines 281-312): fetch
the token record, print would-be values and manual-update instructions,
and return True iff the fetch yielded a record.  No vault write is
performed — the vault state is returned unchanged. -/
def update_jwt_in_keeper (v : Vault) (token_record_uid : String)
    (token : String) (payload : Payload) : Vault × Bool :=
  match v.fetch token_record_uid with
  | [] => (v, false)
  | _ :: _ => (v, true)

/-- The notifications log file path used by `send_notification`. -/
def logPath (cfg : SigningConfig) : String :=
  jwtPath cfg.secrets_dir "jwt_notifications.log"

/-- The JSON line appended by `send_notification` (lines 317-329),
abstracted to a line determined by the configuration and the payload
expiry; the real line carries event metadata and never the raw token. -/
def notificationLine (cfg : SigningConfig) (payload : Payload) : String :=
  "event=jwt_generated issuer=" ++ cfg.issuer ++ " expires_at=" ++
    toString payload.exp.sec

/-- server_jwt_generator.py `send_notification` (lines 314-342): append a
notification line to `jwt_notifications.log` and return True. -/
def send_notification (cfg : SigningConfig) (payload : Payload) (fs : FS) :
    FS × Bool :=
  let old := (FS.read fs (logPath cfg)).getD ""
  (FS.write fs (logPath cfg) (old ++ notificationLine cfg payload ++ "\n"),
    true)

/-- The observable outcome of one Issuance run (server_jwt_generator.py
`main`, from step 5 on): file system, vault state, the best-effort update
flag, the notification flag, the process exit code, and the summary line
printed for the Keeper-update step. -/
structure IssuanceResult where
  fs : FS
  vault : Vault
  keeperSuccess : Bool
  notificationSuccess : Bool
  exitCode : Nat
  publishSummary : String
deriving Repr

/-- server_jwt_generator.py `main` steps 5-8 and summary (lines 392-433),
after configuration loading succeeds: generate, save locally
(no backup), best-effort Keeper update whose boolean result is never
consulted, notification, then a summary that always prints
"Keeper update: Manual step required" and falls off the end of `main`
(exit code 0). -/
def issuance_run (cfg : SigningConfig) (token_record_uid : String)
    (v : Vault) (now : UtcTime) (fs : FS) : IssuanceResult :=
  let g := generate_jwt cfg now
  let token := g.1.rawString
  let s := save_jwt_locally token cfg fs
  let u := update_jwt_in_keeper v token_record_uid token g.2
  let n := send_notification cfg g.2 s.1
  ⟨n.1, u.1, u.2, n.2, 0, "Keeper update: Manual step required"⟩

end ServerGen


/-- A concrete signing configuration (the defaults of
`load_jwt_config_from_keeper` with a sample secret), used by witnesses. -/
def sampleSigningConfig : ServerGen.SigningConfig :=
  ⟨"s3cret", "api-development-server", "api-engineers", 24,
    "secrets", "api_access.jwt"⟩

/-! ### Library lemmas about the file-system model -/

namespace FS

theorem read_cons (a c : String) (t : FS) (q : String) :
    read ((a, c) :: t) q = if a = q then some c else read t q := by
  by_cases h : a = q
  · simp [read, List.find?, h]
  · have hb : (a == q) = false := beq_eq_false_iff_ne.mpr h
    simp [read, List.find?, hb, h]

theorem remove_cons (a c : String) (t : FS) (p : String) :
    remove ((a, c) :: t) p =
      if a = p then remove t p else (a, c) :: remove t p := by
  by_cases h : a = p
  · simp [remove, List.filter_cons, h]
  · simp [remove, List.filter_cons, h]

theorem read_remove_self (fs : FS) (p : String) :
    read (remove fs p) p = none := by
  induction fs with
  | nil => rfl
  | cons e t ih =>
    rw [show e = (e.1, e.2) from rfl, remove_cons]
    by_cases h : e.1 = p
    · simpa [h] using ih
    · rw [if_neg h, read_cons, if_neg h]
      exact ih

theorem read_remove_ne (fs : FS) (p q : String) (h : q ≠ p) :
    read (remove fs p) q = read fs q := by
  induction fs with
  | nil => rfl
  | cons e t ih =>
    rw [show e = (e.1, e.2) from rfl, remove_cons]
    by_cases he : e.1 = p
    · have hq : ¬ (e.1 = q) := fun hc => h (hc ▸ he)
      rw [if_pos he, read_cons, if_neg hq]
      exact ih
    · rw [if_neg he, read_cons, read_cons]
      by_cases hq : e.1 = q
      · rw [if_pos hq, if_pos hq]
      · rw [if_neg hq, if_neg hq]
        exact ih

theorem read_write_self (fs : FS) (p c : String) :
    read (write fs p c) p = some c := by
  rw [write, read_cons, if_pos rfl]

theorem read_write_ne (fs : FS) (p c : String) (q : String) (h : q ≠ p) :
    read (write fs p c) q = read fs q := by
  rw [write, read_cons, if_neg (fun hc => h hc.symm)]
  exact read_remove_ne fs p q h

theorem read_rename_of_read (fs : FS) (src dst : String) (c : String)
    (hr : read fs src = some c) (hne : src ≠ dst) :
    read (rename fs src dst) dst = some c ∧
    read (rename fs src dst) src = none := by
  constructor
  · simp [rename, hr, read_write_self]
  · simp only [rename, hr]
    rw [read_write_ne _ _ _ _ hne]
    exact read_remove_self fs src

end FS

/-! ### Helper lemmas about paths and strings -/

theorem string_length_pos_of_ne_empty (s : String) (h : s ≠ "") :
    0 < s.length := by
  rcases s with ⟨l⟩
  cases l with
  | nil => exact absurd rfl h
  | cons c t => simp [String.length]

theorem string_append_left_cancel (a b c : String) (h : a ++ b = a ++ c) :
    b = c := by
  rcases a with ⟨la⟩; rcases b with ⟨lb⟩; rcases c with ⟨lc⟩
  have hd := congrArg String.data h
  simp [String.data] at hd
  exact congrArg String.mk hd

theorem jwtPath_ne_of_ne (d a b : String) (h : a ≠ b) :
    jwtPath d a ≠ jwtPath d b := by
  intro hc
  exact h (string_append_left_cancel (d ++ "/") a b (by
    simpa [jwtPath, String.append_assoc] using hc))

theorem cachePath_ne_backupPath (cfg : JwtConfig) (now : DateTime6) :
    cfg.cachePath ≠ cfg.backupPath now := by
  apply jwtPath_ne_of_ne
  intro hc
  have hl := congrArg String.length hc
  simp only [String.length_append] at hl
  have h8 : (".backup." : String).length = 8 := rfl
  omega

theorem logPath_ne_cachePath (cfg : ServerGen.SigningConfig)
    (hfn : cfg.jwt_filename ≠ "jwt_notifications.log") :
    ServerGen.logPath cfg ≠ cfg.cacheConfig.cachePath := by
  exact jwtPath_ne_of_ne cfg.secrets_dir "jwt_notifications.log"
    cfg.jwt_filename (fun hc => hfn hc.symm)

/-! ### Helper lemmas about the cache rotation -/

theorem removeOld_absent (cfg : JwtConfig) (now : DateTime6) (fs : FS)
    (h : FS.read fs cfg.cachePath = none) :
    LocalSync.remove_old_jwt cfg now fs = (fs, false) := by
  simp [LocalSync.remove_old_jwt, FS.pathExists, h]

theorem removeOld_present (cfg : JwtConfig) (now : DateTime6) (fs : FS)
    (c : String) (h : FS.read fs cfg.cachePath = some c) :
    (LocalSync.remove_old_jwt cfg now fs).2 = true ∧
    FS.read (LocalSync.remove_old_jwt cfg now fs).1 (cfg.backupPath now) =
      some c ∧
    FS.read (LocalSync.remove_old_jwt cfg now fs).1 cfg.cachePath = none := by
  have hex : FS.pathExists fs cfg.cachePath = true := by
    simp [FS.pathExists, h]
  have hr := FS.read_rename_of_read fs cfg.cachePath (cfg.backupPath now) c h
    (cachePath_ne_backupPath cfg now)
  refine ⟨by simp [LocalSync.remove_old_jwt, hex], ?_, ?_⟩
  · simpa [LocalSync.remove_old_jwt, hex] using hr.1
  · simpa [LocalSync.remove_old_jwt, hex] using hr.2

/-! ### Claim theorems -/

/-- C8: for every (directory, filename), `remove_old_jwt` with no current
file reports that no rotation occurred and leaves the file system
untouched (no backup file created); with a current file present it renames
it to `filename ++ ".backup." ++ strftimeCompact now` (the timestamp
formatted YYYYMMDD_HHMMSS), reports a rotation, and the old content
survives at the backup path while the current path becomes absent — the
file is never deleted without being renamed first. -/
theorem claim_C8_rotation (cfg : JwtConfig) (now : DateTime6) (fs : FS) :
    (FS.read fs cfg.cachePath = none →
      LocalSync.remove_old_jwt cfg now fs = (fs, false)) ∧
    (∀ c, FS.read fs cfg.cachePath = some c →
      (LocalSync.remove_old_jwt cfg now fs).2 = true ∧
      FS.read (LocalSync.remove_old_jwt cfg now fs).1 (cfg.backupPath now) =
        some c ∧
      FS.read (LocalSync.remove_old_jwt cfg now fs).1 cfg.cachePath = none) := by
  exact ⟨removeOld_absent cfg now fs, fun c h => removeOld_present cfg now fs c h⟩

/-- Witness for C8 at a concrete configuration, timestamp and cache
state. -/
theorem claim_C8_rotation_witness :
    LocalSync.remove_old_jwt ⟨"secrets", "api_access.jwt"⟩
      ⟨2025, 1, 2, 3, 4, 5⟩ [] = ([], false) ∧
    ((LocalSync.remove_old_jwt ⟨"secrets", "api_access.jwt"⟩
        ⟨2025, 1, 2, 3, 4, 5⟩ [("secrets/api_access.jwt", "OLD")]).2 = true ∧
      FS.read (LocalSync.remove_old_jwt ⟨"secrets", "api_access.jwt"⟩
        ⟨2025, 1, 2, 3, 4, 5⟩ [("secrets/api_access.jwt", "OLD")]).1
        (JwtConfig.backupPath ⟨"secrets", "api_access.jwt"⟩
          ⟨2025, 1, 2, 3, 4, 5⟩) = some "OLD" ∧
      FS.read (LocalSync.remove_old_jwt ⟨"secrets", "api_access.jwt"⟩
        ⟨2025, 1, 2, 3, 4, 5⟩ [("secrets/api_access.jwt", "OLD")]).1
        (JwtConfig.cachePath ⟨"secrets", "api_access.jwt"⟩) = none) :=
  ⟨(claim_C8_rotation ⟨"secrets", "api_access.jwt"⟩ ⟨2025, 1, 2, 3, 4, 5⟩
      []).1 (by decide),
    (claim_C8_rotation ⟨"secrets", "api_access.jwt"⟩ ⟨2025, 1, 2, 3, 4, 5⟩
      [("secrets/api_access.jwt", "OLD")]).2 "OLD" (by decide)⟩

/-- C4: for every SigningConfig with a non-empty secret and positive
expirationHours, decoding (without verification) the credential produced
by `generate_jwt` yields an `exp` claim exactly equal to the `iat` claim
plus expirationHours hours (3600 seconds each), and `exp > iat`. -/
theorem claim_C4_exp_offset (cfg : ServerGen.SigningConfig)
    (now : ServerGen.UtcTime) (hs : cfg.secret ≠ "")
    (hh : 0 < cfg.expiration_hours) :
    (ServerGen.decodeUnverified (ServerGen.generate_jwt cfg now).1).exp =
      (ServerGen.decodeUnverified (ServerGen.generate_jwt cfg now).1).iat +
        3600 * cfg.expiration_hours ∧
    (ServerGen.decodeUnverified (ServerGen.generate_jwt cfg now).1).iat <
      (ServerGen.decodeUnverified (ServerGen.generate_jwt cfg now).1).exp := by
  refine ⟨rfl, ?_⟩
  simp only [ServerGen.decodeUnverified, ServerGen.generate_jwt,
    ServerGen.jwtEncode, ServerGen.encodeWireClaims, ServerGen.addHours]
  omega

/-- Witness for C4 at a 24-hour configuration and a concrete instant. -/
theorem claim_C4_exp_offset_witness :
    (ServerGen.decodeUnverified (ServerGen.generate_jwt
      ⟨"s3cret", "api-development-server", "api-engineers", 24,
        "secrets", "api_access.jwt"⟩ ⟨1700000000, 123456⟩).1).exp =
      (ServerGen.decodeUnverified (ServerGen.generate_jwt
        ⟨"s3cret", "api-development-server", "api-engineers", 24,
          "secrets", "api_access.jwt"⟩ ⟨1700000000, 123456⟩).1).iat +
        3600 * 24 ∧
    (ServerGen.decodeUnverified (ServerGen.generate_jwt
      ⟨"s3cret", "api-development-server", "api-engineers", 24,
        "secrets", "api_access.jwt"⟩ ⟨1700000000, 123456⟩).1).iat <
      (ServerGen.decodeUnverified (ServerGen.generate_jwt
        ⟨"s3cret", "api-development-server", "api-engineers", 24,
          "secrets", "api_access.jwt"⟩ ⟨1700000000, 123456⟩).1).exp :=
  claim_C4_exp_offset
    ⟨"s3cret", "api-development-server", "api-engineers", 24,
      "secrets", "api_access.jwt"⟩ ⟨1700000000, 123456⟩
    (by decide) (by decide)

/-- C10: `update_jwt_in_keeper` performs no write to the vault — the vault
state it returns is the one it was given — and it reports success exactly
when the record fetch yields a non-empty result. -/
theorem claim_C10_no_vault_write (v : Vault) (uid token_str : String)
    (payload : ServerGen.Payload) :
    (ServerGen.update_jwt_in_keeper v uid token_str payload).1 = v ∧
    ((ServerGen.update_jwt_in_keeper v uid token_str payload).2 = true ↔
      v.fetch uid ≠ []) := by
  unfold ServerGen.update_jwt_in_keeper
  cases h : v.fetch uid with
  | nil => simp
  | cons r t => simp

/-- C3 is a code bug: `retrieve_jwt_from_keeper` builds the expiry instant
with `datetime.fromtimestamp`, which interprets the epoch-second `exp`
claim in the LOCAL timezone, and compares it against `datetime.utcnow()`
(while labelling the printed instant "UTC").  On a host at UTC+1
(offset 3600 s) a token with `exp` equal to the current instant is
reported valid, where the specified UTC comparison reports it expired;
only on a UTC host (offset 0) does the code exhibit the specified strict
boundary behavior. -/
theorem claim_C3_expiry_tz_bug :
    LocalSync.token_expiry_valid 1000 3600 1000 0 = true ∧
    LocalSync.spec_expiry_valid 1000 1000 0 = false ∧
    LocalSync.token_expiry_valid 1000 0 1000 0 = false ∧
    LocalSync.token_expiry_valid 1001 0 1000 0 = true := by
  decide

/-- C5: when the best-effort Keeper update fails (the token record fetch
comes back empty), the Issuance run still reports exit code 0, the summary
marks the publishing step as requiring a manual step, and the freshly
generated credential is cached locally. -/
theorem claim_C5_best_effort (cfg : ServerGen.SigningConfig) (uid : String)
    (v : Vault) (now : ServerGen.UtcTime) (fs : FS)
    (h : v.fetch uid = [])
    (hfn : cfg.jwt_filename ≠ "jwt_notifications.log") :
    (ServerGen.issuance_run cfg uid v now fs).keeperSuccess = false ∧
    (ServerGen.issuance_run cfg uid v now fs).exitCode = 0 ∧
    (ServerGen.issuance_run cfg uid v now fs).publishSummary =
      "Keeper update: Manual step required" ∧
    FS.read (ServerGen.issuance_run cfg uid v now fs).fs
      cfg.cacheConfig.cachePath =
      some (ServerGen.generate_jwt cfg now).1.rawString := by
  refine ⟨?_, rfl, rfl, ?_⟩
  · simp [ServerGen.issuance_run, ServerGen.update_jwt_in_keeper, h]
  · show FS.read (ServerGen.send_notification _ _ _).1 _ = _
    rw [ServerGen.send_notification]
    rw [FS.read_write_ne _ _ _ _
      (fun hc => (logPath_ne_cachePath cfg hfn) hc.symm)]
    exact FS.read_write_self _ _ _

/-- Witness for C5 at a concrete configuration, an empty vault and an
empty cache. -/
theorem claim_C5_best_effort_witness :
    (ServerGen.issuance_run
      ⟨"s3cret", "api-development-server", "api-engineers", 24,
        "secrets", "api_access.jwt"⟩ "U1" ⟨[]⟩ ⟨1700000000, 0⟩
      []).keeperSuccess = false ∧
    (ServerGen.issuance_run
      ⟨"s3cret", "api-development-server", "api-engineers", 24,
        "secrets", "api_access.jwt"⟩ "U1" ⟨[]⟩ ⟨1700000000, 0⟩
      []).exitCode = 0 ∧
    (ServerGen.issuance_run
      ⟨"s3cret", "api-development-server", "api-engineers", 24,
        "secrets", "api_access.jwt"⟩ "U1" ⟨[]⟩ ⟨1700000000, 0⟩
      []).publishSummary = "Keeper update: Manual step required" ∧
    FS.read (ServerGen.issuance_run
      ⟨"s3cret", "api-development-server", "api-engineers", 24,
        "secrets", "api_access.jwt"⟩ "U1" ⟨[]⟩ ⟨1700000000, 0⟩
      []).fs (JwtConfig.cachePath ⟨"secrets", "api_access.jwt"⟩) =
      some (ServerGen.generate_jwt
        ⟨"s3cret", "api-development-server", "api-engineers", 24,
          "secrets", "api_access.jwt"⟩ ⟨1700000000, 0⟩).1.rawString :=
  claim_C5_best_effort
    ⟨"s3cret", "api-development-server", "api-engineers", 24,
      "secrets", "api_access.jwt"⟩ "U1" ⟨[]⟩ ⟨1700000000, 0⟩ []
    (by decide) (by decide)

/-- C6: with neither environment variable set and no local
`app_config.json`, `load_app_config` writes the placeholder template to
the config file and the workflow exits with code 1; and whenever an
existing parseable config file is present, the resolver leaves it exactly
as it was. -/
theorem claim_C6_template_fallback (e : Config.Env) (c : Config.AppConfig) :
    (e.jwt_token_record_uid_var = none →
      e.jwt_config_record_uid_var = none →
      Config.load_app_config e Config.AppConfigFile.absent =
        (none, Config.AppConfigFile.parsed Config.templateConfig) ∧
      Config.config_stage_exit
        (Config.load_app_config e Config.AppConfigFile.absent).1 = some 1) ∧
    (Config.load_app_config e (Config.AppConfigFile.parsed c)).2 =
      Config.AppConfigFile.parsed c := by
  constructor
  · intro h1 h2
    have he : Config.envBothSet e = false := by
      simp [Config.envBothSet, h1, h2]
    constructor
    · simp [Config.load_app_config, he]
    · simp [Config.load_app_config, he, Config.config_stage_exit]
  · by_cases he : Config.envBothSet e
    · simp [Config.load_app_config, he]
    · simp [Config.load_app_config, he]

/-- Witness for C6: an empty environment with no config file, and an
existing parseable config file. -/
theorem claim_C6_template_fallback_witness :
    (Config.load_app_config ⟨none, none⟩ Config.AppConfigFile.absent =
        (none, Config.AppConfigFile.parsed Config.templateConfig) ∧
      Config.config_stage_exit
        (Config.load_app_config ⟨none, none⟩
          Config.AppConfigFile.absent).1 = some 1) ∧
    (Config.load_app_config ⟨none, none⟩
      (Config.AppConfigFile.parsed ⟨some "uidA", some "uidB"⟩)).2 =
      Config.AppConfigFile.parsed ⟨some "uidA", some "uidB"⟩ :=
  ⟨(claim_C6_template_fallback ⟨none, none⟩
      ⟨some "uidA", some "uidB"⟩).1 rfl rfl,
    (claim_C6_template_fallback ⟨none, none⟩
      ⟨some "uidA", some "uidB"⟩).2⟩

/-- C7: if a required record identifier is absent, empty, or still starts
with the `YOUR_` placeholder, the validation step of both workflows lists
that key among the missing keys and exits with code 1. -/
theorem claim_C7_placeholder_validation (c : Config.AppConfig) (k : String)
    (hk : k ∈ Config.required_keys)
    (hbad : Config.AppConfig.get c k = none ∨
      Config.AppConfig.get c k = some "" ∨
      ∃ v, Config.AppConfig.get c k = some v ∧
        Config.pyStartsWith v "YOUR_" = true) :
    k ∈ Config.missing_keys c ∧ Config.validate_exit c = some 1 := by
  have hm : Config.key_missing c k = true := by
    rcases hbad with h | h | ⟨v, hv, hs⟩
    · simp [Config.key_missing, h]
    · simp [Config.key_missing, h]
    · simp [Config.key_missing, hv, hs]
  have hmem : k ∈ Config.missing_keys c :=
    List.mem_filter.mpr ⟨hk, hm⟩
  refine ⟨hmem, ?_⟩
  unfold Config.validate_exit
  have hne : ¬ (Config.missing_keys c = []) := by
    intro h0
    rw [h0] at hmem
    exact List.not_mem_nil k hmem
  simp [hne]

/-- Witness for C7: the template configuration still carries the `YOUR_`
placeholder in its token record uid. -/
theorem claim_C7_placeholder_validation_witness :
    "jwt_token_record_uid" ∈ Config.missing_keys Config.templateConfig ∧
    Config.validate_exit Config.templateConfig = some 1 :=
  claim_C7_placeholder_validation Config.templateConfig
    "jwt_token_record_uid" (by decide)
    (Or.inr (Or.inr ⟨"YOUR_JWT_TOKEN_RECORD_UID", by decide, by decide⟩))

/-- C9 as stated is false: the single-space credential is a non-empty
string, yet after installing it `verify_jwt_access` reports
readable = false, because the read-back content is stripped of whitespace
and then has zero length. -/
theorem claim_C9_counterexample :
    (" " : String) ≠ "" ∧
    (LocalSync.verify_jwt_access ⟨"secrets", "api_access.jwt"⟩
      (LocalSync.save_jwt_locally " " ⟨"secrets", "api_access.jwt"⟩
        []).1).readable = false := by
  decide

/-- C9 amended: for every credential string that is non-empty and has no
leading or trailing whitespace (`pyStrip token = token` — true of every
actual JWT), installing it and then verifying succeeds, the reported
character length equals the installed length, and the file content read
back is byte-for-byte the installed string; `verify_jwt_access` fails when
the file is missing or when its content has zero length after trimming
whitespace. -/
theorem claim_C9_roundtrip (cfg : JwtConfig) (fs : FS) (token : String)
    (hne : token ≠ "") (hstrip : LocalSync.pyStrip token = token) :
    FS.read (LocalSync.save_jwt_locally token cfg fs).1 cfg.cachePath =
      some token ∧
    (LocalSync.verify_jwt_access cfg
      (LocalSync.save_jwt_locally token cfg fs).1).readable = true ∧
    (LocalSync.verify_jwt_access cfg
      (LocalSync.save_jwt_locally token cfg fs).1).length = token.length ∧
    (∀ fs2 : FS, FS.read fs2 cfg.cachePath = none →
      (LocalSync.verify_jwt_access cfg fs2).readable = false) ∧
    (∀ fs2 : FS, ∀ content, FS.read fs2 cfg.cachePath = some content →
      LocalSync.pyStrip content = "" →
      (LocalSync.verify_jwt_access cfg fs2).readable = false) := by
  have hread : FS.read (LocalSync.save_jwt_locally token cfg fs).1
      cfg.cachePath = some token :=
    FS.read_write_self fs cfg.cachePath token
  have hpos : 0 < token.length := string_length_pos_of_ne_empty token hne
  have hv : LocalSync.verify_jwt_access cfg
      (LocalSync.save_jwt_locally token cfg fs).1 =
      ⟨true, token.length, token.take 30⟩ := by
    simp only [LocalSync.verify_jwt_access, hread, hstrip]
    rw [if_pos hpos]
  refine ⟨hread, by rw [hv], by rw [hv], ?_, ?_⟩
  · intro fs2 h2
    simp [LocalSync.verify_jwt_access, h2]
  · intro fs2 content h2 hs2
    simp [LocalSync.verify_jwt_access, h2, hs2]

/-- Witness for C9 amended, at the credential "abc.def.ghi" over an empty
cache directory, plus the missing-file failure case. -/
theorem claim_C9_roundtrip_witness :
    FS.read (LocalSync.save_jwt_locally "abc.def.ghi"
      ⟨"secrets", "api_access.jwt"⟩ []).1
      (JwtConfig.cachePath ⟨"secrets", "api_access.jwt"⟩) =
      some "abc.def.ghi" ∧
    (LocalSync.verify_jwt_access ⟨"secrets", "api_access.jwt"⟩
      (LocalSync.save_jwt_locally "abc.def.ghi"
        ⟨"secrets", "api_access.jwt"⟩ []).1).readable = true ∧
    (LocalSync.verify_jwt_access ⟨"secrets", "api_access.jwt"⟩
      (LocalSync.save_jwt_locally "abc.def.ghi"
        ⟨"secrets", "api_access.jwt"⟩ []).1).length =
      ("abc.def.ghi" : String).length ∧
    (LocalSync.verify_jwt_access ⟨"secrets", "api_access.jwt"⟩
      []).readable = false :=
  have h := claim_C9_roundtrip ⟨"secrets", "api_access.jwt"⟩ []
    "abc.def.ghi" (by decide) (by decide)
  ⟨h.1, h.2.1, h.2.2.1, h.2.2.2.1 [] rfl⟩

/-- C2 as stated is false: with a pre-existing cache file and a
tokenRecordId the vault does not recognize, the Sync run does exit with
code 1, but the pre-existing local cache file has been renamed away (the
rotation happens before the fetch), so it is not left unmodified. -/
theorem claim_C2_counterexample :
    (LocalSync.sync_run ⟨"secrets", "api_access.jwt"⟩ ⟨[]⟩ "UNKNOWN"
      ⟨2025, 1, 2, 3, 4, 5⟩
      [("secrets/api_access.jwt", "OLDTOKEN")]).exitCode = 1 ∧
    FS.read (LocalSync.sync_run ⟨"secrets", "api_access.jwt"⟩ ⟨[]⟩
      "UNKNOWN" ⟨2025, 1, 2, 3, 4, 5⟩
      [("secrets/api_access.jwt", "OLDTOKEN")]).fs
      "secrets/api_access.jwt" = none := by
  decide

/-- C2 amended: a Sync run against an unrecognized tokenRecordId fails
with exit code 1 and installs nothing, but any pre-existing cache file has
already been rotated before the fetch: its content is preserved under the
timestamped backup path while the current path is left absent; only when
no cache file existed is the file system left unmodified. -/
theorem claim_C2_notfound_rotates (cfg : JwtConfig) (uid : String)
    (now : DateTime6) (fs : FS) (v : Vault) (hv : v.fetch uid = []) :
    (LocalSync.sync_run cfg v uid now fs).exitCode = 1 ∧
    (∀ c, FS.read fs cfg.cachePath = some c →
      FS.read (LocalSync.sync_run cfg v uid now fs).fs
        (cfg.backupPath now) = some c ∧
      FS.read (LocalSync.sync_run cfg v uid now fs).fs
        cfg.cachePath = none) ∧
    (FS.read fs cfg.cachePath = none →
      (LocalSync.sync_run cfg v uid now fs).fs = fs) := by
  have hretr : LocalSync.retrieve_jwt_from_keeper v uid = none := by
    simp [LocalSync.retrieve_jwt_from_keeper, hv]
  have hrun : LocalSync.sync_run cfg v uid now fs =
      ⟨(LocalSync.remove_old_jwt cfg now fs).1, 1,
        (LocalSync.remove_old_jwt cfg now fs).2, false⟩ := by
    simp only [LocalSync.sync_run, hretr]
  refine ⟨by rw [hrun], ?_, ?_⟩
  · intro c hc
    have hp := removeOld_present cfg now fs c hc
    rw [hrun]
    exact ⟨hp.2.1, hp.2.2⟩
  · intro hc
    rw [hrun]
    rw [removeOld_absent cfg now fs hc]

/-- Witness for C2 amended, at a concrete empty vault and a cache holding
one old token. -/
theorem claim_C2_notfound_rotates_witness :
    (LocalSync.sync_run ⟨"secrets", "api_access.jwt"⟩ ⟨[]⟩ "UNKNOWN"
      ⟨2025, 1, 2, 3, 4, 5⟩
      [("secrets/api_access.jwt", "OLDTOKEN")]).exitCode = 1 ∧
    FS.read (LocalSync.sync_run ⟨"secrets", "api_access.jwt"⟩ ⟨[]⟩
      "UNKNOWN" ⟨2025, 1, 2, 3, 4, 5⟩
      [("secrets/api_access.jwt", "OLDTOKEN")]).fs
      (JwtConfig.backupPath ⟨"secrets", "api_access.jwt"⟩
        ⟨2025, 1, 2, 3, 4, 5⟩) = some "OLDTOKEN" ∧
    FS.read (LocalSync.sync_run ⟨"secrets", "api_access.jwt"⟩ ⟨[]⟩
      "UNKNOWN" ⟨2025, 1, 2, 3, 4, 5⟩
      [("secrets/api_access.jwt", "OLDTOKEN")]).fs
      (JwtConfig.cachePath ⟨"secrets", "api_access.jwt"⟩) = none :=
  have h := claim_C2_notfound_rotates ⟨"secrets", "api_access.jwt"⟩
    "UNKNOWN" ⟨2025, 1, 2, 3, 4, 5⟩
    [("secrets/api_access.jwt", "OLDTOKEN")] ⟨[]⟩ rfl
  ⟨h.1, (h.2.1 "OLDTOKEN" rfl).1, (h.2.1 "OLDTOKEN" rfl).2⟩

/-- C1 as stated is false: running Issuance twice in succession leaves
only the second run's credential in the cache directory — the server-side
`save_jwt_locally` performs no backup, so after the second run no file
carries the first run's credential and no backup-named path exists (the
directory holds exactly the notifications log and the current cache
file). -/
theorem claim_C1_counterexample :
    ((ServerGen.issuance_run sampleSigningConfig "U1" ⟨[]⟩ ⟨2000, 0⟩
        (ServerGen.issuance_run sampleSigningConfig "U1" ⟨[]⟩ ⟨1000, 0⟩
          []).fs).fs.all
      (fun e => e.2 !=
        (ServerGen.generate_jwt sampleSigningConfig
          ⟨1000, 0⟩).1.rawString)) = true ∧
    ((ServerGen.issuance_run sampleSigningConfig "U1" ⟨[]⟩ ⟨2000, 0⟩
        (ServerGen.issuance_run sampleSigningConfig "U1" ⟨[]⟩ ⟨1000, 0⟩
          []).fs).fs.map (fun e => e.1)) =
      ["secrets/jwt_notifications.log", "secrets/api_access.jwt"] := by
  decide

/-- C1 amended: the Issuance caching step is a blind in-place overwrite —
`ServerGen.save_jwt_locally` installs the new credential at
(directory, filename) and touches no other path, creating no backup, so
two successive Issuance caches leave only the second credential and the
first is preserved nowhere (only the Sync workflow backs up before
replacing). -/
theorem claim_C1_issuance_overwrites (cfg : ServerGen.SigningConfig)
    (fs : FS) (t1 t2 : String) (q : String)
    (hq : q ≠ cfg.cacheConfig.cachePath) :
    FS.read (ServerGen.save_jwt_locally t2 cfg
      (ServerGen.save_jwt_locally t1 cfg fs).1).1
      cfg.cacheConfig.cachePath = some t2 ∧
    FS.read (ServerGen.save_jwt_locally t2 cfg
      (ServerGen.save_jwt_locally t1 cfg fs).1).1 q = FS.read fs q := by
  constructor
  · exact FS.read_write_self _ _ _
  · show FS.read (FS.write (FS.write fs _ t1) _ t2) q = FS.read fs q
    rw [FS.read_write_ne _ _ _ _ hq, FS.read_write_ne _ _ _ _ hq]

/-- Witness for C1 amended: two successive caches at the sample
configuration; the backup-named path stays absent. -/
theorem claim_C1_issuance_overwrites_witness :
    FS.read (ServerGen.save_jwt_locally "TOK2" sampleSigningConfig
      (ServerGen.save_jwt_locally "TOK1" sampleSigningConfig []).1).1
      (ServerGen.SigningConfig.cacheConfig sampleSigningConfig).cachePath =
      some "TOK2" ∧
    FS.read (ServerGen.save_jwt_locally "TOK2" sampleSigningConfig
      (ServerGen.save_jwt_locally "TOK1" sampleSigningConfig []).1).1
      "secrets/api_access.jwt.backup.20250102_030405" =
      FS.read ([] : FS) "secrets/api_access.jwt.backup.20250102_030405" :=
  claim_C1_issuance_overwrites sampleSigningConfig [] "TOK1" "TOK2"
    "secrets/api_access.jwt.backup.20250102_030405" (by decide)

end KeeperJwt
